import Mathlib

/-!
Verification development for the SafeLoRA utilities
(`src/peft/utils/safelora.py`): a shallow embedding of the data model and
the operations (`SafeLoraConfig`, `SafetensorLoader`, `get_aligned_matrix`,
`project_weights`, `apply_safelora`), together with theorems settling the
frozen claims about them.

Modelling conventions:
* tensors are 2-D matrices over `ℚ` (the code's float32/bfloat16/device
  casts are precision plumbing and are modelled as the identity);
* Python dicts are association lists with Python's insertion-order
  semantics (assignment to an existing key updates it in place, assignment
  to a fresh key appends);
* Python exceptions are an explicit `Except PyErr` result;
* `torch.nn.functional.cosine_similarity` and `torch.norm` are
  floating-point library calls; they are taken as parameters
  (`cossim`, `frobNorm`) of the embedded functions, and concrete theorems
  instantiate them with exact rational versions (`exactCos`, `exNorm`)
  on inputs where the float computation is exact.
-/

/-- Python exceptions that the embedded code can raise. -/
inductive PyErr where
  | valueError
  | typeError
  | keyError
  | indexError
  | fileNotFoundError
  | assertionError
  | attributeError (attr : String)
  deriving DecidableEq

deriving instance DecidableEq for Except

/-- A 2-D tensor over `ℚ`, row-major. -/
structure Mat where
  rows : Nat
  cols : Nat
  data : List (List ℚ)
  deriving DecidableEq

/-- Entry `(i, j)` of a matrix (0 outside the stored data). -/
def Mat.entry (M : Mat) (i j : Nat) : ℚ :=
  ((M.data[i]?.getD [])[j]?).getD 0

/-- `torch.mm`: matrix product. -/
def Mat.mm (M N : Mat) : Mat :=
  ⟨M.rows, N.cols,
    (List.range M.rows).map (fun i =>
      (List.range N.cols).map (fun j =>
        ((List.range M.cols).map (fun k => M.entry i k * N.entry k j)).sum))⟩

/-- `tensor.t()`: transpose. -/
def Mat.transpose (M : Mat) : Mat :=
  ⟨M.cols, M.rows,
    (List.range M.cols).map (fun i => (List.range M.rows).map (fun j => M.entry j i))⟩

/-- Elementwise difference `base - aligned` (the shapes agree when the code
computes it, thanks to the preceding `assert`). -/
def Mat.sub (M N : Mat) : Mat :=
  ⟨M.rows, M.cols,
    (List.range M.rows).map (fun i =>
      (List.range M.cols).map (fun j => M.entry i j - N.entry i j))⟩

/-- Scalar multiple (used to model division of a matrix by a scalar norm). -/
def Mat.smul (c : ℚ) (M : Mat) : Mat :=
  ⟨M.rows, M.cols, M.data.map (fun row => row.map (fun x => c * x))⟩

/-- `tensor.shape` of a 2-D tensor. -/
def Mat.shape (M : Mat) : Nat × Nat := (M.rows, M.cols)

/-- `tensor.reshape(1, -1)`: the row-major flattening. -/
def Mat.flatten (M : Mat) : List ℚ := M.data.flatten

/-- Keys of a Python dict modelled as an association list. -/
def dictKeys {α : Type} (d : List (String × α)) : List String := d.map Prod.fst

/-- Python dict lookup, `none` when the key is absent. -/
def dictFind? {α : Type} : List (String × α) → String → Option α
  | [], _ => none
  | p :: rest, k => if p.1 = k then some p.2 else dictFind? rest k

/-- Python dict assignment `d[k] = v`: updates an existing key in place
(keeping its position) and appends a fresh key at the end. -/
def dictSet {α : Type} : List (String × α) → String → α → List (String × α)
  | [], k, v => [(k, v)]
  | p :: rest, k, v => if p.1 = k then (k, v) :: rest else p :: dictSet rest k v

/-- The weight mapping: tensor name → tensor. -/
abbrev WDict := List (String × Mat)

/-- Dict access `d[k]` for a key known to be present (in `project_weights`
every accessed name is drawn from the dict's own key list, so Python's
`KeyError` branch cannot arise; absent keys get a junk default). -/
def dictGet (d : WDict) (k : String) : Mat := (dictFind? d k).getD ⟨0, 0, []⟩

/-- Python's substring test `sub in s`. -/
def strIn (sub s : String) : Bool := decide (sub.toList <:+: s.toList)

/-- Round-half-to-even on `ℚ`, the rounding mode of `numpy.round`. -/
def roundHalfToEven (q : ℚ) : ℤ :=
  let f : ℤ := Rat.floor q
  let frac : ℚ := q - (f : ℚ)
  if frac < 1/2 then f
  else if 1/2 < frac then f + 1
  else if f % 2 = 0 then f else f + 1

/-- `numpy.round(x, 5)`. -/
def round5 (q : ℚ) : ℚ := (roundHalfToEven (q * 100000) : ℚ) / 100000

/-- Dot product of two flattened tensors. -/
def dotQ (x y : List ℚ) : ℚ := (x.zip y).foldl (fun s p => s + p.1 * p.2) 0

/-- Exact square root on `ℚ`, correct on rationals whose numerator and
denominator are perfect squares (all concrete inputs below are chosen so). -/
def ratSqrt (q : ℚ) : ℚ := (Nat.sqrt q.num.toNat : ℚ) / (Nat.sqrt q.den : ℚ)

/-- Instantiation of the abstract cosine-similarity parameter: the exact
value of `torch.nn.functional.cosine_similarity(x.reshape(1,-1),
y.reshape(1,-1))` on inputs whose Euclidean norms are rational (this is
arranged in every concrete example below, so the float computation yields
the same value). -/
def exactCos (x y : Mat) : ℚ :=
  let fx := x.flatten
  let fy := y.flatten
  dotQ fx fy / (ratSqrt (dotQ fx fx) * ratSqrt (dotQ fy fy))

/-- Instantiation of the abstract Frobenius-norm parameter (`torch.norm`),
exact on inputs with rational norm. -/
def exNorm (m : Mat) : ℚ := ratSqrt (dotQ m.flatten m.flatten)

/-- `SafeLoraConfig` (the dataclass fields, lines 31–75).  Path fields are
`Option String` because the dataclass defaults them to `None`. -/
structure SafeLoraConfig where
  base_model_path : Option String
  aligned_model_path : Option String
  peft_model_path : Option String
  select_layers_type : String
  threshold : ℚ
  num_proj_layers : Int
  devices : String
  save_weights : Bool
  deriving DecidableEq

/-- Dataclass construction followed by `__post_init__` (lines 77–83): each
path is checked against `None` only. -/
def SafeLoraConfig.construct (base aligned peft : Option String) (slt : String)
    (thr : ℚ) (npl : Int) (dev : String) (sw : Bool) : Except PyErr SafeLoraConfig :=
  if base = none then Except.error PyErr.valueError
  else if aligned = none then Except.error PyErr.valueError
  else if peft = none then Except.error PyErr.valueError
  else Except.ok ⟨base, aligned, peft, slt, thr, npl, dev, sw⟩

/-- The assignment `configs.threshold = thrs` (line 243). -/
def SafeLoraConfig.setThreshold (c : SafeLoraConfig) (t : ℚ) : SafeLoraConfig :=
  ⟨c.base_model_path, c.aligned_model_path, c.peft_model_path, c.select_layers_type,
    t, c.num_proj_layers, c.devices, c.save_weights⟩

/-- The on-disk safetensors world that the loader reads: `files` maps a file
path to its tensors by name; `shardIndex` maps a model directory to the
`weight_map` of its `model.safetensors.index.json` (logical tensor name →
shard file name), with the shard files resolved relative to that directory. -/
structure FS where
  files : List (String × WDict)
  shardIndex : List (String × List (String × String))

/-- `SafetensorLoader` state after `__init__` (lines 110–129): exactly the
three attributes the constructor assigns.  In particular no
`base_model_prefix` attribute is ever created. -/
structure SafetensorLoader where
  model_path : String
  is_sharded : Bool
  weight_map : Option (List (String × String))
  deriving DecidableEq

/-- `model_path.rpartition(os.path.sep)[0]`: everything before the last
path separator (empty when there is none). -/
def pyDirname (p : String) : String :=
  String.mk (((p.toList.reverse).dropWhile (fun c => decide (c ≠ '/'))).drop 1).reverse

/-- Lines 106–108: append the default weight-file name unless the given
location already ends with it. -/
def normalizePath (mp0 : String) : String :=
  if mp0.endsWith "model.safetensors" then mp0 else mp0 ++ "/model.safetensors"

/-- Lines 110–129 of `SafetensorLoader.__init__`, after path normalization:
the single file resolves to a non-sharded loader (`weight_map = None`);
otherwise the shard index is loaded and `weight_map` maps each logical name
to the full path of its shard (lines 126–129); with neither, the
construction fails (lines 121–124). -/
def SafetensorLoader.initPath (fs : FS) (mp : String) :
    Except PyErr SafetensorLoader :=
  if (dictFind? fs.files mp).isSome then
    Except.ok ⟨mp, false, none⟩
  else
    match dictFind? fs.shardIndex (pyDirname mp) with
    | some wm =>
      Except.ok ⟨mp, true, some (wm.map (fun p => (p.1, pyDirname mp ++ "/" ++ p.2)))⟩
    | none => Except.error PyErr.fileNotFoundError

/-- `SafetensorLoader.__init__` (lines 94–129).  The remote-download branch
(lines 98–104) is retrieval plumbing: locations are taken to be local, so
construction normalizes the path and resolves either the single file or the
shard index. -/
def SafetensorLoader.init (fs : FS) (model_path : Option String) :
    Except PyErr SafetensorLoader :=
  match model_path with
  | none => Except.error PyErr.valueError
  | some mp0 => SafetensorLoader.initPath fs (normalizePath mp0)

/-- `SafetensorLoader.get_tensor` (lines 131–148).  When the exact lookup in
the opened file fails, the `SafetensorError` handler reads
`self.base_model_prefix` — an attribute `__init__` never assigns — so that
path raises `AttributeError` (modelled as `attributeError "base_model_prefix"`). -/
def SafetensorLoader.get_tensor (sl : SafetensorLoader) (fs : FS) (name : String) :
    Except PyErr Mat := do
  let file_path ←
    if !sl.is_sharded then Except.ok sl.model_path
    else
      match sl.weight_map with
      | none => Except.error PyErr.typeError
      | some wm =>
        match dictFind? wm name with
        | none => Except.error PyErr.keyError
        | some fp => Except.ok fp
  match dictFind? fs.files file_path with
  | none => Except.error PyErr.fileNotFoundError
  | some f =>
    match dictFind? f name with
    | some t => Except.ok t
    | none => Except.error (PyErr.attributeError "base_model_prefix")

/-- The name selection of lines 159–162: all names in a loader's
`weight_map` that contain one of the adapter's `target_modules`. -/
def selectedNames (wm : List (String × String)) (target_modules : List String) :
    List String :=
  (dictKeys wm).filter (fun n => target_modules.any (fun v => strIn v n))

/-- The loop of lines 163–173 over the positionally paired name lists:
per pair, the shape `assert` (line 165–167, `AssertionError` on mismatch),
then the alignment matrix `(diff · diffᵀ) / ‖diff‖` appended to the
accumulator.  The device/float32 casts of lines 169–171 are modelled as the
identity, and the double `get_tensor` calls of the assert are merged with
the loads of line 168 (they return the same tensors). -/
def alignLoop (frobNorm : Mat → ℚ) (fs : FS) (sl_base sl_align : SafetensorLoader) :
    List (String × String) → List Mat → Except PyErr (List Mat)
  | [], acc => Except.ok acc
  | (name_base, name_align) :: rest, acc => do
    let tb ← sl_base.get_tensor fs name_base
    let ta ← sl_align.get_tensor fs name_align
    if tb.shape = ta.shape then
      let vec := Mat.sub tb ta
      let P := Mat.smul (1 / frobNorm vec) (Mat.mm vec vec.transpose)
      alignLoop frobNorm fs sl_base sl_align rest (acc ++ [P])
    else Except.error PyErr.assertionError

/-- `get_aligned_matrix` (lines 151–174).  Constructs the aligned loader,
then the base loader (in that order, as in lines 156–157); line 159/161 then
calls `.keys()` on each loader's `weight_map`, which for a single-file
(non-sharded) store is `None` and raises `AttributeError` (modelled as
`attributeError "keys"`).  `devices` only selects precision casts, modelled
as the identity. -/
def get_aligned_matrix (frobNorm : Mat → ℚ) (fs : FS)
    (base_model_path aligned_model_path : Option String) (devices : String)
    (target_modules : List String) : Except PyErr (List Mat) := do
  let sl_align ← SafetensorLoader.init fs aligned_model_path
  let sl_base ← SafetensorLoader.init fs base_model_path
  let baseWm ←
    match sl_base.weight_map with
    | none => Except.error (PyErr.attributeError "keys")
    | some wm => Except.ok wm
  let alignWm ←
    match sl_align.weight_map with
    | none => Except.error (PyErr.attributeError "keys")
    | some wm => Except.ok wm
  let base := selectedNames baseWm target_modules
  let align := selectedNames alignWm target_modules
  alignLoop frobNorm fs sl_base sl_align (base.zip align) []

/-- `names_A` of line 179: the keys containing `"lora_A"`, in dict order. -/
def names_A (d : WDict) : List String :=
  (dictKeys d).filter (fun name => strIn "lora_A" name)

/-- `names_B` of line 180: the keys containing `"lora_B"`, in dict order. -/
def names_B (d : WDict) : List String :=
  (dictKeys d).filter (fun name => strIn "lora_B" name)

/-- The per-layer safety score of lines 186–195 for a pair
`pr = (name_A, name_B)` with alignment matrix `P`, reading the factors from
the untouched copy `ori`: `numpy.round(cosine_similarity((P·B)·A, B·A), 5)`. -/
def layerScore (cossim : Mat → Mat → ℚ) (ori : WDict) (P : Mat)
    (pr : String × String) : ℚ :=
  round5 (cossim (Mat.mm (Mat.mm P (dictGet ori pr.2)) (dictGet ori pr.1))
                 (Mat.mm (dictGet ori pr.2) (dictGet ori pr.1)))

/-- The `for name_A, name_B in zip(names_A, names_B)` loop of lines 185–206.
`ori` is the `copy.deepcopy` taken before the loop; `idx` is the running
index into `v` (`v[idx]` raises `IndexError` past the end); the branch of
lines 197–201 stores either the projected `W` or the original factor back
into the mapping.  The bfloat16/device casts of `P` (lines 187–190) are
modelled as the identity, and the local diagnostics `i` (a counter) and
`dis`/`dist` (lines 198, 203–205), which do not reach any output, are
omitted. -/
def projectLoop (cossim : Mat → Mat → ℚ) (configs : SafeLoraConfig) (ori : WDict)
    (v : List Mat) : List (String × String) → Nat → WDict → List ℚ →
    Except PyErr (WDict × List ℚ)
  | [], _, pw, cos_total => Except.ok (pw, cos_total)
  | (name_A, name_B) :: rest, idx, pw, cos_total =>
    match v[idx]? with
    | none => Except.error PyErr.indexError
    | some P =>
      let cos := layerScore cossim ori P (name_A, name_B)
      let newB := if cos ≤ configs.threshold then Mat.mm P (dictGet ori name_B)
                  else dictGet ori name_B
      projectLoop cossim configs ori v rest (idx + 1) (dictSet pw name_B newB)
        (cos_total ++ [cos])

/-- `project_weights` (lines 177–207): deep-copies the mapping, pairs the
`lora_A`/`lora_B` names positionally, and runs the selection loop, returning
the (in-place updated) mapping together with the per-layer scores. -/
def project_weights (cossim : Mat → Mat → ℚ) (configs : SafeLoraConfig)
    (peft_weights : WDict) (v : List Mat) : Except PyErr (WDict × List ℚ) :=
  let ori_peft_weights := peft_weights
  projectLoop cossim configs ori_peft_weights v
    ((names_A peft_weights).zip (names_B peft_weights)) 0 peft_weights []

/-- numpy slicing `l[:k]` for an `int` bound: clamped from above, and
counted from the end when the bound is negative. -/
def pySliceTake (l : List ℚ) (k : Int) : List ℚ :=
  if 0 ≤ k then l.take k.toNat else l.take (l.length - (-k).toNat)

/-- Line 242, `numpy.sort(cos)[: configs.num_proj_layers][-1]`: the k-th
smallest score, clamped to the last score when `k` exceeds the number of
layers; `[-1]` on an empty slice raises `IndexError`. -/
def kthSmallest (cos : List ℚ) (k : Int) : Except PyErr ℚ :=
  match (pySliceTake (List.insertionSort (· ≤ ·) cos) k).getLast? with
  | none => Except.error PyErr.indexError
  | some t => Except.ok t

/-- Lines 238–249 of `apply_safelora`, after the weights and alignment
matrices have been loaded: policy dispatch, then the save/return step.
Because `project_weights` assigns through its `peft_weights` argument, after
the first `number`-policy pass the caller's dict has become that pass's
output mapping, and the second pass receives it.  Line 246 then reads
`configs.saveWeights`; the `SafeLoraConfig` dataclass defines `save_weights`
(line 72), not `saveWeights`, so every path that reaches line 246 raises
`AttributeError` (the `final_wieghts` / `final_weights` `NameError` of lines
247/249 in the `threshold` branch is never reached behind it). -/
def applySafeloraCore (cossim : Mat → Mat → ℚ) (configs : SafeLoraConfig)
    (peft_weights : WDict) (v : List Mat) : Except PyErr WDict := do
  if configs.select_layers_type = "threshold" then
    let _final ← project_weights cossim configs peft_weights v
    Except.error (PyErr.attributeError "saveWeights")
  else if configs.select_layers_type = "number" then
    let r1 ← project_weights cossim configs peft_weights v
    let thrs ← kthSmallest r1.2 configs.num_proj_layers
    let _r2 ← project_weights cossim (configs.setThreshold thrs) r1.1 v
    Except.error (PyErr.attributeError "saveWeights")
  else
    Except.error (PyErr.attributeError "saveWeights")

/-- `apply_safelora` (lines 210–249).  Reading `adapter_config.json`
(lines 228–229) and `adapter_model.safetensors` (lines 231–237) is file
plumbing, modelled by passing in the loaded `target_modules` list and
weight mapping; the alignment matrices are then built from the configured
stores and the policy pipeline of lines 238–249 runs. -/
def apply_safelora (cossim : Mat → Mat → ℚ) (frobNorm : Mat → ℚ) (fs : FS)
    (configs : SafeLoraConfig) (target_modules : List String)
    (peft_weights : WDict) : Except PyErr WDict := do
  let v ← get_aligned_matrix frobNorm fs configs.base_model_path
    configs.aligned_model_path configs.devices target_modules
  applySafeloraCore cossim configs peft_weights v

/-! ### Concrete inputs used by the witness and evaluation theorems -/

/-- A one-layer adapter: `A = [[1]]`, `B = [[2]]`. -/
def exPW : WDict := [("a.lora_A", ⟨1, 1, [[1]]⟩), ("a.lora_B", ⟨1, 1, [[2]]⟩)]

/-- One alignment matrix `P = [[3]]` for `exPW`. -/
def exV : List Mat := [⟨1, 1, [[3]]⟩]

/-- A `threshold`-policy configuration with threshold `1/2`. -/
def exCfgThr : SafeLoraConfig :=
  ⟨some "base", some "align", some "peft", "threshold", 1/2, 10, "cpu", true⟩

/-- A `number`-policy configuration requesting 1 layer, initial threshold `9/10`. -/
def exCfgNum : SafeLoraConfig :=
  ⟨some "b", some "a", some "p", "number", 9/10, 1, "cpu", true⟩

/-- A two-layer adapter: `A1 = A2 = [[1]]`, `B1 = [[3],[4]]`, `B2 = [[0],[1]]`. -/
def exPW2 : WDict :=
  [("a.lora_A", ⟨1, 1, [[1]]⟩), ("a.lora_B", ⟨2, 1, [[3], [4]]⟩),
   ("b.lora_A", ⟨1, 1, [[1]]⟩), ("b.lora_B", ⟨2, 1, [[0], [1]]⟩)]

/-- Alignment matrices `P1 = P2 = [[0,0],[0,5]]` for `exPW2` (realizable:
`diff = base − aligned = [[0,0],[3,4]]` gives `diff·diffᵀ/‖diff‖ = [[0,0],[0,5]]`,
exactly, also in floating point). -/
def exV2 : List Mat := [⟨2, 2, [[0, 0], [0, 5]]⟩, ⟨2, 2, [[0, 0], [0, 5]]⟩]

/-- `exPW2` after the first `number`-policy pass: `B1` has been replaced in
place by `P1 · B1 = [[0],[20]]` (its score `4/5` is ≤ the initial threshold
`9/10`), `B2` kept (score `1`). -/
def exPW2mut : WDict :=
  [("a.lora_A", ⟨1, 1, [[1]]⟩), ("a.lora_B", ⟨2, 1, [[0], [20]]⟩),
   ("b.lora_A", ⟨1, 1, [[1]]⟩), ("b.lora_B", ⟨2, 1, [[0], [1]]⟩)]

/-- Two sharded stores `b` and `a` whose only `q_proj` tensors have shapes
`2×2` and `1×2` respectively: a shape mismatch. -/
def exFSsharded : FS :=
  ⟨[("b/s1", [("m.q_proj.w", ⟨2, 2, [[1, 0], [0, 1]]⟩)]),
    ("a/s1", [("m.q_proj.w", ⟨1, 2, [[1, 0]]⟩)])],
   [("b", [("m.q_proj.w", "s1")]), ("a", [("m.q_proj.w", "s1")])]⟩

/-- Two single-file (non-sharded) stores `b` and `a`. -/
def exFSsingle : FS :=
  ⟨[("b/model.safetensors", [("m.q_proj.w", ⟨1, 1, [[1]]⟩)]),
    ("a/model.safetensors", [("m.q_proj.w", ⟨1, 1, [[1]]⟩)])], []⟩

/-- A single-file store `m` holding only the tensor named `"x"`. -/
def exFSm : FS := ⟨[("m/model.safetensors", [("x", ⟨1, 1, [[1]]⟩)])], []⟩

/-- Proof-level description of the score list computed by a `projectLoop`
run starting at index `idx` (`none` when `v` is exhausted). -/
def passScoresAux (cossim : Mat → Mat → ℚ) (ori : WDict) (v : List Mat) :
    List (String × String) → Nat → Option (List ℚ)
  | [], _ => some []
  | pr :: rest, idx =>
    match v[idx]? with
    | none => none
    | some P => (passScoresAux cossim ori v rest (idx + 1)).map
        (fun t => layerScore cossim ori P pr :: t)

/-- A `threshold`-policy configuration with integral threshold `1`, used with
the sharded stores. -/
def exCfgC5 : SafeLoraConfig :=
  ⟨some "b", some "a", some "p", "threshold", 1, 10, "cpu", true⟩

/-- Statement helper: whether an embedded call returned normally. -/
def isOkE {α : Type} : Except PyErr α → Bool
  | Except.ok _ => true
  | Except.error _ => false

/-- Statement helper: the shape of a loaded tensor, `none` on error. -/
def eShape : Except PyErr Mat → Option (Nat × Nat)
  | Except.ok t => some t.shape
  | Except.error _ => none

/-! ### Auxiliary lemmas about the embedded dict and list operations -/

theorem exceptBindOk {α β : Type} (a : α) (f : α → Except PyErr β) :
    (Except.ok a >>= f) = f a := rfl

theorem exceptBindErr {α β : Type} (e : PyErr) (f : α → Except PyErr β) :
    ((Except.error e : Except PyErr α) >>= f) = Except.error e := rfl

theorem dictKeys_cons {α : Type} (p : String × α) (d : List (String × α)) :
    dictKeys (p :: d) = p.1 :: dictKeys d := rfl

theorem dictSet_keys_of_mem {α : Type} (k : String) (v : α) :
    ∀ d : List (String × α), k ∈ dictKeys d → dictKeys (dictSet d k v) = dictKeys d := by
  intro d
  induction d with
  | nil => intro h; simp [dictKeys] at h
  | cons p rest ih =>
    intro h
    by_cases hpk : p.1 = k
    · simp [dictSet, hpk, dictKeys_cons]
    · have hk : k ∈ dictKeys rest := by
        rcases (by simpa [dictKeys_cons] using h : k = p.1 ∨ k ∈ dictKeys rest) with h1 | h1
        · exact absurd h1.symm hpk
        · exact h1
      simp [dictSet, hpk, dictKeys_cons, ih hk]

theorem dictFind?_dictSet_self {α : Type} (k : String) (v : α) :
    ∀ d : List (String × α), dictFind? (dictSet d k v) k = some v := by
  intro d
  induction d with
  | nil => simp [dictSet, dictFind?]
  | cons p rest ih =>
    by_cases hpk : p.1 = k
    · simp [dictSet, hpk, dictFind?]
    · simp [dictSet, hpk, dictFind?, ih]

theorem dictFind?_dictSet_ne {α : Type} (k k' : String) (v : α) (hne : k' ≠ k) :
    ∀ d : List (String × α), dictFind? (dictSet d k v) k' = dictFind? d k' := by
  have hkk : k ≠ k' := Ne.symm hne
  intro d
  induction d with
  | nil => simp [dictSet, dictFind?, hkk]
  | cons p rest ih =>
    by_cases hpk : p.1 = k
    · simp [dictSet, hpk, dictFind?, hkk]
    · simp [dictSet, hpk, dictFind?, ih]

theorem zip_snd_mem {α β : Type} :
    ∀ (l1 : List α) (l2 : List β) (p : α × β), p ∈ l1.zip l2 → p.2 ∈ l2 := by
  intro l1
  induction l1 with
  | nil => intro l2 p h; simp [List.zip] at h
  | cons a t ih =>
    intro l2 p h
    cases l2 with
    | nil => simp [List.zip] at h
    | cons b t2 =>
      rcases (by simpa using h : p = (a, b) ∨ p ∈ t.zip t2) with h1 | h1
      · simp [h1]
      · exact List.mem_cons_of_mem b (ih t2 p h1)

theorem zip_map_snd_sublist {α β : Type} :
    ∀ (l1 : List α) (l2 : List β), ((l1.zip l2).map Prod.snd).Sublist l2 := by
  intro l1
  induction l1 with
  | nil => intro l2; simp
  | cons a t ih =>
    intro l2
    cases l2 with
    | nil => simp
    | cons b t2 => simpa using (ih t2).cons₂ b

theorem projectLoop_scores (cossim : Mat → Mat → ℚ) (cfg : SafeLoraConfig)
    (ori : WDict) (v : List Mat) :
    ∀ (ps : List (String × String)) (idx : Nat) (pw : WDict) (acc : List ℚ)
      (res : WDict × List ℚ),
      projectLoop cossim cfg ori v ps idx pw acc = Except.ok res →
      ∃ scores, passScoresAux cossim ori v ps idx = some scores ∧
        res.2 = acc ++ scores := by
  intro ps
  induction ps with
  | nil =>
    intro idx pw acc res h
    simp only [projectLoop] at h
    cases h
    exact ⟨[], rfl, by simp⟩
  | cons pr rest ih =>
    obtain ⟨nA, nB⟩ := pr
    intro idx pw acc res h
    cases hv : v[idx]? with
    | none =>
      simp only [projectLoop, hv] at h
      exact Except.noConfusion h
    | some P =>
      simp only [projectLoop, hv] at h
      obtain ⟨scores, hs, he⟩ := ih _ _ _ res h
      refine ⟨layerScore cossim ori P (nA, nB) :: scores, ?_, ?_⟩
      · simp [passScoresAux, hv, hs]
      · simp [he]

theorem passScoresAux_get (cossim : Mat → Mat → ℚ) (ori : WDict) (v : List Mat) :
    ∀ (ps : List (String × String)) (idx : Nat) (scores : List ℚ),
      passScoresAux cossim ori v ps idx = some scores →
      ∀ (i : Nat) (pr : String × String) (P : Mat),
        ps[i]? = some pr → v[idx + i]? = some P →
        scores[i]? = some (layerScore cossim ori P pr) := by
  intro ps
  induction ps with
  | nil =>
    intro idx scores h i pr P hi hP
    simp at hi
  | cons hd rest ih =>
    intro idx scores h i pr P hi hP
    cases hv : v[idx]? with
    | none => simp [passScoresAux, hv] at h
    | some P0 =>
      cases hrest : passScoresAux cossim ori v rest (idx + 1) with
      | none => simp [passScoresAux, hv, hrest] at h
      | some t =>
        simp only [passScoresAux, hv, hrest, Option.map_some'] at h
        cases h
        cases i with
        | zero =>
          have hpr : hd = pr := by simpa using hi
          have hPP : P0 = P := by
            rw [Nat.add_zero, hv] at hP
            exact Option.some.inj hP
          simp [hpr, hPP]
        | succ n =>
          have hP2 : v[idx + 1 + n]? = some P := by
            rw [show idx + 1 + n = idx + (n + 1) by omega]
            exact hP
          simpa using ih (idx + 1) t hrest n pr P (by simpa using hi) hP2

theorem projectLoop_untouched (cossim : Mat → Mat → ℚ) (cfg : SafeLoraConfig)
    (ori : WDict) (v : List Mat) (k : String) :
    ∀ (ps : List (String × String)) (idx : Nat) (pw : WDict) (acc : List ℚ)
      (res : WDict × List ℚ),
      (∀ pr ∈ ps, pr.2 ≠ k) →
      projectLoop cossim cfg ori v ps idx pw acc = Except.ok res →
      dictFind? res.1 k = dictFind? pw k := by
  intro ps
  induction ps with
  | nil =>
    intro idx pw acc res _ h
    simp only [projectLoop] at h
    cases h
    rfl
  | cons pr rest ih =>
    obtain ⟨nA, nB⟩ := pr
    intro idx pw acc res hne h
    cases hv : v[idx]? with
    | none =>
      simp only [projectLoop, hv] at h
      exact Except.noConfusion h
    | some P =>
      simp only [projectLoop, hv] at h
      have hkB : k ≠ nB := fun hk => (hne (nA, nB) (by simp)) hk.symm
      have := ih _ _ _ res (fun pr2 h2 => hne pr2 (List.mem_cons_of_mem _ h2)) h
      rw [this, dictFind?_dictSet_ne nB k _ hkB]

theorem projectLoop_keys (cossim : Mat → Mat → ℚ) (cfg : SafeLoraConfig)
    (ori : WDict) (v : List Mat) :
    ∀ (ps : List (String × String)) (idx : Nat) (pw : WDict) (acc : List ℚ)
      (res : WDict × List ℚ),
      (∀ pr ∈ ps, pr.2 ∈ dictKeys pw) →
      projectLoop cossim cfg ori v ps idx pw acc = Except.ok res →
      dictKeys res.1 = dictKeys pw := by
  intro ps
  induction ps with
  | nil =>
    intro idx pw acc res _ h
    simp only [projectLoop] at h
    cases h
    rfl
  | cons pr rest ih =>
    obtain ⟨nA, nB⟩ := pr
    intro idx pw acc res hmem h
    cases hv : v[idx]? with
    | none =>
      simp only [projectLoop, hv] at h
      exact Except.noConfusion h
    | some P =>
      simp only [projectLoop, hv] at h
      have hB : nB ∈ dictKeys pw := hmem (nA, nB) (by simp)
      have hkeys := dictSet_keys_of_mem nB
        (if layerScore cossim ori P (nA, nB) ≤ cfg.threshold
         then Mat.mm P (dictGet ori nB) else dictGet ori nB) pw hB
      have := ih _ _ _ res (fun pr2 h2 => by
        rw [hkeys]; exact hmem pr2 (List.mem_cons_of_mem _ h2)) h
      rw [this, hkeys]

theorem projectLoop_value (cossim : Mat → Mat → ℚ) (cfg : SafeLoraConfig)
    (ori : WDict) (v : List Mat) :
    ∀ (ps : List (String × String)) (idx : Nat) (pw : WDict) (acc : List ℚ)
      (res : WDict × List ℚ),
      (ps.map Prod.snd).Nodup →
      projectLoop cossim cfg ori v ps idx pw acc = Except.ok res →
      ∀ (i : Nat) (pr : String × String) (P : Mat),
        ps[i]? = some pr → v[idx + i]? = some P →
        dictFind? res.1 pr.2 =
          some (if layerScore cossim ori P pr ≤ cfg.threshold
                then Mat.mm P (dictGet ori pr.2) else dictGet ori pr.2) := by
  intro ps
  induction ps with
  | nil =>
    intro idx pw acc res _ _ i pr P hi _
    simp at hi
  | cons hd rest ih =>
    obtain ⟨nA, nB⟩ := hd
    intro idx pw acc res hnd h i pr P hi hP
    cases hv : v[idx]? with
    | none =>
      simp only [projectLoop, hv] at h
      exact Except.noConfusion h
    | some P0 =>
      simp only [projectLoop, hv] at h
      have hnd1 : (nB :: rest.map Prod.snd).Nodup := by
        rw [List.map_cons] at hnd
        exact hnd
      have hnd2 := List.nodup_cons.mp hnd1
      cases i with
      | zero =>
        have hpr : (nA, nB) = pr := by simpa using hi
        have hPP : P0 = P := by
          rw [Nat.add_zero, hv] at hP
          exact Option.some.inj hP
        have hrest_ne : ∀ pr2 ∈ rest, pr2.2 ≠ nB := by
          intro pr2 h2 heq
          exact hnd2.1 (heq ▸ List.mem_map_of_mem Prod.snd h2)
        have huntouched := projectLoop_untouched cossim cfg ori v nB rest _ _ _ res
          hrest_ne h
        rw [← hpr]
        rw [huntouched, dictFind?_dictSet_self, hPP]
      | succ n =>
        have hP2 : v[idx + 1 + n]? = some P := by
          rw [show idx + 1 + n = idx + (n + 1) by omega]
          exact hP
        exact ih _ _ _ res hnd2.2 h n pr P (by simpa using hi) hP2

/-! ### Evaluation lemmas for the concrete examples

`Nat.gcd` and `Nat.sqrt` are defined by well-founded recursion and do not
reduce definitionally, so rational arithmetic is evaluated with `norm_num`
in small steps rather than by `decide`. -/

theorem natSqrtLit (k m : Nat) (h : k * k = m) : Nat.sqrt m = k := by
  rw [← h]
  exact Nat.sqrt_eq k

theorem ratSqrt1 : ratSqrt 1 = 1 := by
  norm_num [ratSqrt, Rat.num_one, Rat.den_one, Nat.sqrt_one]

theorem ratSqrt4 : ratSqrt 4 = 2 := by
  norm_num [ratSqrt, natSqrtLit 2 4 (by norm_num), Rat.num_ofNat, Rat.den_ofNat,
    show (4 : ℤ).toNat = 4 from rfl, Nat.sqrt_one]

theorem ratSqrt25 : ratSqrt 25 = 5 := by
  norm_num [ratSqrt, natSqrtLit 5 25 (by norm_num), Rat.num_ofNat, Rat.den_ofNat,
    show (25 : ℤ).toNat = 25 from rfl, Nat.sqrt_one]

theorem ratSqrt36 : ratSqrt 36 = 6 := by
  norm_num [ratSqrt, natSqrtLit 6 36 (by norm_num), Rat.num_ofNat, Rat.den_ofNat,
    show (36 : ℤ).toNat = 36 from rfl, Nat.sqrt_one]

theorem ratSqrt400 : ratSqrt 400 = 20 := by
  norm_num [ratSqrt, natSqrtLit 20 400 (by norm_num), Rat.num_ofNat, Rat.den_ofNat,
    show (400 : ℤ).toNat = 400 from rfl, Nat.sqrt_one]

theorem ratSqrt10000 : ratSqrt 10000 = 100 := by
  norm_num [ratSqrt, natSqrtLit 100 10000 (by norm_num), Rat.num_ofNat,
    Rat.den_ofNat, show (10000 : ℤ).toNat = 10000 from rfl, Nat.sqrt_one]

theorem round5_one : round5 1 = 1 := by
  norm_num [round5, roundHalfToEven, Rat.floor_def', Rat.num_ofNat, Rat.den_ofNat]

theorem round5_fourFifths : round5 (4/5) = 4/5 := by
  norm_num [round5, roundHalfToEven, show (4/5 * 100000 : ℚ) = 80000 by norm_num,
    Rat.floor_def', Rat.num_ofNat, Rat.den_ofNat]

theorem mmE1 : Mat.mm ⟨1, 1, [[3]]⟩ ⟨1, 1, [[2]]⟩ = ⟨1, 1, [[6]]⟩ := by
  norm_num [Mat.mm, Mat.entry, List.range_succ, List.range_zero, List.sum_cons,
    List.sum_nil]

theorem mmE2 : Mat.mm ⟨1, 1, [[6]]⟩ ⟨1, 1, [[1]]⟩ = ⟨1, 1, [[6]]⟩ := by
  norm_num [Mat.mm, Mat.entry, List.range_succ, List.range_zero, List.sum_cons,
    List.sum_nil]

theorem mmE3 : Mat.mm ⟨1, 1, [[2]]⟩ ⟨1, 1, [[1]]⟩ = ⟨1, 1, [[2]]⟩ := by
  norm_num [Mat.mm, Mat.entry, List.range_succ, List.range_zero, List.sum_cons,
    List.sum_nil]

theorem cosE1 : exactCos ⟨1, 1, [[6]]⟩ ⟨1, 1, [[2]]⟩ = 1 := by
  norm_num [exactCos, Mat.flatten, dotQ, List.flatten_cons, List.flatten_nil,
    List.zip_cons_cons, List.zip_nil_right, List.foldl_cons, List.foldl_nil,
    ratSqrt36, ratSqrt4]

theorem scoreE1 :
    layerScore exactCos exPW ⟨1, 1, [[3]]⟩ ("a.lora_A", "a.lora_B") = 1 := by
  show round5 (exactCos (Mat.mm (Mat.mm ⟨1, 1, [[3]]⟩ ⟨1, 1, [[2]]⟩) ⟨1, 1, [[1]]⟩)
    (Mat.mm ⟨1, 1, [[2]]⟩ ⟨1, 1, [[1]]⟩)) = 1
  rw [mmE1, mmE2, mmE3, cosE1, round5_one]

theorem runThr1 : project_weights exactCos exCfgThr exPW exV = Except.ok (exPW, [1]) := by
  rw [show project_weights exactCos exCfgThr exPW exV = Except.ok
      ([("a.lora_A", (⟨1, 1, [[1]]⟩ : Mat)),
        ("a.lora_B",
          if layerScore exactCos exPW ⟨1, 1, [[3]]⟩ ("a.lora_A", "a.lora_B") ≤
              exCfgThr.threshold
          then Mat.mm ⟨1, 1, [[3]]⟩ (dictGet exPW "a.lora_B")
          else dictGet exPW "a.lora_B")],
        [layerScore exactCos exPW ⟨1, 1, [[3]]⟩ ("a.lora_A", "a.lora_B")]) from rfl,
    scoreE1]
  norm_num [exCfgThr, dictGet, dictFind?, exPW]
  decide

theorem mmN1 : Mat.mm ⟨2, 2, [[0, 0], [0, 5]]⟩ ⟨2, 1, [[3], [4]]⟩ = ⟨2, 1, [[0], [20]]⟩ := by
  norm_num [Mat.mm, Mat.entry, List.range_succ, List.range_zero, List.sum_cons,
    List.sum_nil]

theorem mmN2 : Mat.mm ⟨2, 1, [[0], [20]]⟩ ⟨1, 1, [[1]]⟩ = ⟨2, 1, [[0], [20]]⟩ := by
  norm_num [Mat.mm, Mat.entry, List.range_succ, List.range_zero, List.sum_cons,
    List.sum_nil]

theorem mmN3 : Mat.mm ⟨2, 1, [[3], [4]]⟩ ⟨1, 1, [[1]]⟩ = ⟨2, 1, [[3], [4]]⟩ := by
  norm_num [Mat.mm, Mat.entry, List.range_succ, List.range_zero, List.sum_cons,
    List.sum_nil]

theorem mmN4 : Mat.mm ⟨2, 2, [[0, 0], [0, 5]]⟩ ⟨2, 1, [[0], [1]]⟩ = ⟨2, 1, [[0], [5]]⟩ := by
  norm_num [Mat.mm, Mat.entry, List.range_succ, List.range_zero, List.sum_cons,
    List.sum_nil]

theorem mmN5 : Mat.mm ⟨2, 1, [[0], [5]]⟩ ⟨1, 1, [[1]]⟩ = ⟨2, 1, [[0], [5]]⟩ := by
  norm_num [Mat.mm, Mat.entry, List.range_succ, List.range_zero, List.sum_cons,
    List.sum_nil]

theorem mmN6 : Mat.mm ⟨2, 1, [[0], [1]]⟩ ⟨1, 1, [[1]]⟩ = ⟨2, 1, [[0], [1]]⟩ := by
  norm_num [Mat.mm, Mat.entry, List.range_succ, List.range_zero, List.sum_cons,
    List.sum_nil]

theorem mmN7 : Mat.mm ⟨2, 2, [[0, 0], [0, 5]]⟩ ⟨2, 1, [[0], [20]]⟩ = ⟨2, 1, [[0], [100]]⟩ := by
  norm_num [Mat.mm, Mat.entry, List.range_succ, List.range_zero, List.sum_cons,
    List.sum_nil]

theorem mmN8 : Mat.mm ⟨2, 1, [[0], [100]]⟩ ⟨1, 1, [[1]]⟩ = ⟨2, 1, [[0], [100]]⟩ := by
  norm_num [Mat.mm, Mat.entry, List.range_succ, List.range_zero, List.sum_cons,
    List.sum_nil]

theorem cosN1 : exactCos ⟨2, 1, [[0], [20]]⟩ ⟨2, 1, [[3], [4]]⟩ = 4/5 := by
  norm_num [exactCos, Mat.flatten, dotQ, List.flatten_cons, List.flatten_nil,
    List.zip_cons_cons, List.zip_nil_right, List.foldl_cons, List.foldl_nil,
    ratSqrt400, ratSqrt25]

theorem cosN2 : exactCos ⟨2, 1, [[0], [5]]⟩ ⟨2, 1, [[0], [1]]⟩ = 1 := by
  norm_num [exactCos, Mat.flatten, dotQ, List.flatten_cons, List.flatten_nil,
    List.zip_cons_cons, List.zip_nil_right, List.foldl_cons, List.foldl_nil,
    ratSqrt25, ratSqrt1]

theorem cosN3 : exactCos ⟨2, 1, [[0], [100]]⟩ ⟨2, 1, [[0], [20]]⟩ = 1 := by
  norm_num [exactCos, Mat.flatten, dotQ, List.flatten_cons, List.flatten_nil,
    List.zip_cons_cons, List.zip_nil_right, List.foldl_cons, List.foldl_nil,
    ratSqrt10000, ratSqrt400]

theorem scoreN1a :
    layerScore exactCos exPW2 ⟨2, 2, [[0, 0], [0, 5]]⟩ ("a.lora_A", "a.lora_B") = 4/5 := by
  show round5 (exactCos
    (Mat.mm (Mat.mm ⟨2, 2, [[0, 0], [0, 5]]⟩ ⟨2, 1, [[3], [4]]⟩) ⟨1, 1, [[1]]⟩)
    (Mat.mm ⟨2, 1, [[3], [4]]⟩ ⟨1, 1, [[1]]⟩)) = 4/5
  rw [mmN1, mmN2, mmN3, cosN1, round5_fourFifths]

theorem scoreN1b :
    layerScore exactCos exPW2 ⟨2, 2, [[0, 0], [0, 5]]⟩ ("b.lora_A", "b.lora_B") = 1 := by
  show round5 (exactCos
    (Mat.mm (Mat.mm ⟨2, 2, [[0, 0], [0, 5]]⟩ ⟨2, 1, [[0], [1]]⟩) ⟨1, 1, [[1]]⟩)
    (Mat.mm ⟨2, 1, [[0], [1]]⟩ ⟨1, 1, [[1]]⟩)) = 1
  rw [mmN4, mmN5, mmN6, cosN2, round5_one]

theorem scoreN2a :
    layerScore exactCos exPW2mut ⟨2, 2, [[0, 0], [0, 5]]⟩ ("a.lora_A", "a.lora_B") = 1 := by
  show round5 (exactCos
    (Mat.mm (Mat.mm ⟨2, 2, [[0, 0], [0, 5]]⟩ ⟨2, 1, [[0], [20]]⟩) ⟨1, 1, [[1]]⟩)
    (Mat.mm ⟨2, 1, [[0], [20]]⟩ ⟨1, 1, [[1]]⟩)) = 1
  rw [mmN7, mmN8, mmN2, cosN3, round5_one]

theorem scoreN2b :
    layerScore exactCos exPW2mut ⟨2, 2, [[0, 0], [0, 5]]⟩ ("b.lora_A", "b.lora_B") = 1 := by
  show round5 (exactCos
    (Mat.mm (Mat.mm ⟨2, 2, [[0, 0], [0, 5]]⟩ ⟨2, 1, [[0], [1]]⟩) ⟨1, 1, [[1]]⟩)
    (Mat.mm ⟨2, 1, [[0], [1]]⟩ ⟨1, 1, [[1]]⟩)) = 1
  rw [mmN4, mmN5, mmN6, cosN2, round5_one]

theorem runNum1 :
    project_weights exactCos exCfgNum exPW2 exV2 = Except.ok (exPW2mut, [4/5, 1]) := by
  rw [show project_weights exactCos exCfgNum exPW2 exV2 = Except.ok
      ([("a.lora_A", (⟨1, 1, [[1]]⟩ : Mat)),
        ("a.lora_B",
          if layerScore exactCos exPW2 ⟨2, 2, [[0, 0], [0, 5]]⟩
              ("a.lora_A", "a.lora_B") ≤ exCfgNum.threshold
          then Mat.mm ⟨2, 2, [[0, 0], [0, 5]]⟩ (dictGet exPW2 "a.lora_B")
          else dictGet exPW2 "a.lora_B"),
        ("b.lora_A", (⟨1, 1, [[1]]⟩ : Mat)),
        ("b.lora_B",
          if layerScore exactCos exPW2 ⟨2, 2, [[0, 0], [0, 5]]⟩
              ("b.lora_A", "b.lora_B") ≤ exCfgNum.threshold
          then Mat.mm ⟨2, 2, [[0, 0], [0, 5]]⟩ (dictGet exPW2 "b.lora_B")
          else dictGet exPW2 "b.lora_B")],
        [layerScore exactCos exPW2 ⟨2, 2, [[0, 0], [0, 5]]⟩ ("a.lora_A", "a.lora_B"),
         layerScore exactCos exPW2 ⟨2, 2, [[0, 0], [0, 5]]⟩ ("b.lora_A", "b.lora_B")])
      from rfl, scoreN1a, scoreN1b]
  norm_num [exCfgNum, dictGet, dictFind?, exPW2, exPW2mut, mmN1,
    (show ("a.lora_A" : String) ≠ "a.lora_B" from by decide),
    (show ("a.lora_A" : String) ≠ "b.lora_B" from by decide),
    (show ("a.lora_B" : String) ≠ "b.lora_B" from by decide),
    (show ("b.lora_A" : String) ≠ "b.lora_B" from by decide), mmN4]
  try decide

theorem kthN : kthSmallest [4/5, 1] exCfgNum.num_proj_layers = Except.ok (4/5) := by
  norm_num [kthSmallest, pySliceTake, List.insertionSort, List.orderedInsert, exCfgNum]

theorem runNum2 :
    project_weights exactCos (exCfgNum.setThreshold (4/5)) exPW2mut exV2 =
      Except.ok (exPW2mut, [1, 1]) := by
  rw [show project_weights exactCos (exCfgNum.setThreshold (4/5)) exPW2mut exV2 =
      Except.ok
      ([("a.lora_A", (⟨1, 1, [[1]]⟩ : Mat)),
        ("a.lora_B",
          if layerScore exactCos exPW2mut ⟨2, 2, [[0, 0], [0, 5]]⟩
              ("a.lora_A", "a.lora_B") ≤ (exCfgNum.setThreshold (4/5)).threshold
          then Mat.mm ⟨2, 2, [[0, 0], [0, 5]]⟩ (dictGet exPW2mut "a.lora_B")
          else dictGet exPW2mut "a.lora_B"),
        ("b.lora_A", (⟨1, 1, [[1]]⟩ : Mat)),
        ("b.lora_B",
          if layerScore exactCos exPW2mut ⟨2, 2, [[0, 0], [0, 5]]⟩
              ("b.lora_A", "b.lora_B") ≤ (exCfgNum.setThreshold (4/5)).threshold
          then Mat.mm ⟨2, 2, [[0, 0], [0, 5]]⟩ (dictGet exPW2mut "b.lora_B")
          else dictGet exPW2mut "b.lora_B")],
        [layerScore exactCos exPW2mut ⟨2, 2, [[0, 0], [0, 5]]⟩ ("a.lora_A", "a.lora_B"),
         layerScore exactCos exPW2mut ⟨2, 2, [[0, 0], [0, 5]]⟩ ("b.lora_A", "b.lora_B")])
      from rfl, scoreN2a, scoreN2b]
  norm_num [exCfgNum, SafeLoraConfig.setThreshold, dictGet, dictFind?, exPW2mut,
    (show ("a.lora_A" : String) ≠ "a.lora_B" from by decide),
    (show ("a.lora_A" : String) ≠ "b.lora_B" from by decide),
    (show ("a.lora_B" : String) ≠ "b.lora_B" from by decide),
    (show ("b.lora_A" : String) ≠ "b.lora_B" from by decide), mmN7]
  try decide

/-! ### Claim theorems -/

/-- C1: under the `threshold` policy, for every positionally paired
`lora_A`/`lora_B` adapter factor with alignment matrix `P = v[i]`, a
successful `project_weights` run records the layer's rounded cosine score,
and the returned mapping holds the projected `W = P · B` at the `lora_B`
key exactly when that score is ≤ the configured threshold
(boundary-inclusive), and the unchanged original `B` otherwise. -/
theorem safelora_threshold_replacement_iff
    (cossim : Mat → Mat → ℚ) (configs : SafeLoraConfig) (peft_weights : WDict)
    (v : List Mat)
    (hpol : configs.select_layers_type = "threshold")
    (hnd : (dictKeys peft_weights).Nodup)
    (res : WDict × List ℚ)
    (hres : project_weights cossim configs peft_weights v = Except.ok res)
    (i : Nat) (pr : String × String)
    (hi : ((names_A peft_weights).zip (names_B peft_weights))[i]? = some pr)
    (P : Mat) (hP : v[i]? = some P) :
    res.2[i]? = some (layerScore cossim peft_weights P pr) ∧
    dictFind? res.1 pr.2 =
      some (if layerScore cossim peft_weights P pr ≤ configs.threshold
            then Mat.mm P (dictGet peft_weights pr.2)
            else dictGet peft_weights pr.2) := by
  have hrun : projectLoop cossim configs peft_weights v
      ((names_A peft_weights).zip (names_B peft_weights)) 0 peft_weights []
      = Except.ok res := hres
  have hP0 : v[0 + i]? = some P := by simpa using hP
  constructor
  · obtain ⟨scores, hs, he⟩ :=
      projectLoop_scores cossim configs peft_weights v _ _ _ _ _ hrun
    rw [he]
    simpa using passScoresAux_get cossim peft_weights v _ _ _ hs i pr P hi hP0
  · have hndB : (names_B peft_weights).Nodup := hnd.filter _
    have hndz : ((((names_A peft_weights).zip (names_B peft_weights))).map
        Prod.snd).Nodup :=
      List.Nodup.sublist (zip_map_snd_sublist _ _) hndB
    exact projectLoop_value cossim configs peft_weights v _ _ _ _ _ hndz hrun i pr P
      hi hP0

/-- C1 witness: the theorem applied to the one-layer example (`P = [[3]]`,
`B = [[2]]`, score `1 > 1/2`, so the original `B` is kept). -/
theorem safelora_threshold_replacement_iff_witness :
    ((exPW, [(1 : ℚ)]) : WDict × List ℚ).2[0]? =
      some (layerScore exactCos exPW ⟨1, 1, [[3]]⟩ ("a.lora_A", "a.lora_B")) ∧
    dictFind? ((exPW, [(1 : ℚ)]) : WDict × List ℚ).1 "a.lora_B" =
      some (if layerScore exactCos exPW ⟨1, 1, [[3]]⟩ ("a.lora_A", "a.lora_B") ≤
              exCfgThr.threshold
            then Mat.mm ⟨1, 1, [[3]]⟩ (dictGet exPW "a.lora_B")
            else dictGet exPW "a.lora_B") :=
  safelora_threshold_replacement_iff exactCos exCfgThr exPW exV rfl (by decide)
    (exPW, [1]) runThr1 0 ("a.lora_A", "a.lora_B") (by decide)
    ⟨1, 1, [[3]]⟩ (by decide)

/-- C3: `project_weights` is deterministic — two runs on equal configuration,
weight-mapping and alignment-matrix inputs (and the same similarity
function) return identical outputs; the embedded function is pure. -/
theorem safelora_project_deterministic
    (cossim cossim2 : Mat → Mat → ℚ) (c c2 : SafeLoraConfig)
    (pw pw2 : WDict) (v v2 : List Mat)
    (hpol : c.select_layers_type = "threshold")
    (hcos : cossim = cossim2) (hc : c = c2) (hpw : pw = pw2) (hv : v = v2) :
    project_weights cossim c pw v = project_weights cossim2 c2 pw2 v2 := by
  subst hcos
  subst hc
  subst hpw
  subst hv
  rfl

/-- C3 witness: the theorem applied at the one-layer example. -/
theorem safelora_project_deterministic_witness :
    project_weights exactCos exCfgThr exPW exV =
      project_weights exactCos exCfgThr exPW exV :=
  safelora_project_deterministic exactCos exactCos exCfgThr exCfgThr exPW exPW
    exV exV rfl rfl rfl rfl rfl

/-- C4: a successful `project_weights` run returns a mapping with exactly
the input's keys, in the same order — no key is added or removed. -/
theorem safelora_project_preserves_keys
    (cossim : Mat → Mat → ℚ) (configs : SafeLoraConfig) (peft_weights : WDict)
    (v : List Mat) (res : WDict × List ℚ)
    (hres : project_weights cossim configs peft_weights v = Except.ok res) :
    dictKeys res.1 = dictKeys peft_weights := by
  refine projectLoop_keys cossim configs peft_weights v _ 0 peft_weights [] res ?_ hres
  intro pr hpr
  have h2 : pr.2 ∈ names_B peft_weights := zip_snd_mem _ _ _ hpr
  exact List.mem_of_mem_filter h2

/-- C4 witness: the theorem applied at the one-layer example. -/
theorem safelora_project_preserves_keys_witness :
    dictKeys (((exPW, [(1 : ℚ)]) : WDict × List ℚ).1) = dictKeys exPW :=
  safelora_project_preserves_keys exactCos exCfgThr exPW exV (exPW, [1]) runThr1

/-- C9: `project_weights` updates the mapping in place and reassigns only
`lora_B` entries: every key whose name does not contain `"lora_B"` — in
particular every `lora_A` factor — still maps to its unchanged input
tensor in the returned mapping. -/
theorem safelora_project_touches_only_loraB
    (cossim : Mat → Mat → ℚ) (configs : SafeLoraConfig) (peft_weights : WDict)
    (v : List Mat) (res : WDict × List ℚ)
    (hres : project_weights cossim configs peft_weights v = Except.ok res)
    (k : String) (hk : strIn "lora_B" k = false) :
    dictFind? res.1 k = dictFind? peft_weights k := by
  refine projectLoop_untouched cossim configs peft_weights v k _ 0 peft_weights []
    res ?_ hres
  intro pr hpr heq
  have h2 : pr.2 ∈ names_B peft_weights := zip_snd_mem _ _ _ hpr
  have h3 := List.of_mem_filter h2
  rw [heq, hk] at h3
  exact Bool.noConfusion h3

/-- C9 witness: the theorem applied at the one-layer example, at the
`lora_A` key. -/
theorem safelora_project_touches_only_loraB_witness :
    dictFind? (((exPW, [(1 : ℚ)]) : WDict × List ℚ).1) "a.lora_A" =
      dictFind? exPW "a.lora_A" :=
  safelora_project_touches_only_loraB exactCos exCfgThr exPW exV (exPW, [1])
    runThr1 "a.lora_A" (by decide)

theorem initPath_cases (fs : FS) (mp : String) (sl : SafetensorLoader)
    (h : SafetensorLoader.initPath fs mp = Except.ok sl) :
    (sl.is_sharded = false ∧ sl.weight_map = none) ∨
    (sl.is_sharded = true ∧ ∃ wm, sl.weight_map = some wm) := by
  unfold SafetensorLoader.initPath at h
  by_cases hf : (dictFind? fs.files mp).isSome
  · rw [if_pos hf] at h
    cases h
    exact Or.inl ⟨rfl, rfl⟩
  · rw [if_neg hf] at h
    cases hidx : dictFind? fs.shardIndex (pyDirname mp) with
    | none =>
      rw [hidx] at h
      exact Except.noConfusion h
    | some wm =>
      rw [hidx] at h
      cases h
      exact Or.inr ⟨rfl, _, rfl⟩

theorem init_cases (fs : FS) (mp : Option String) (sl : SafetensorLoader)
    (h : SafetensorLoader.init fs mp = Except.ok sl) :
    (sl.is_sharded = false ∧ sl.weight_map = none) ∨
    (sl.is_sharded = true ∧ ∃ wm, sl.weight_map = some wm) := by
  cases mp with
  | none => exact Except.noConfusion h
  | some mp0 => exact initPath_cases fs (normalizePath mp0) sl h

theorem init_single_file (fs : FS) (mp : Option String) (sl : SafetensorLoader)
    (h : SafetensorLoader.init fs mp = Except.ok sl) (hs : sl.is_sharded = false) :
    sl.weight_map = none := by
  rcases init_cases fs mp sl h with ⟨_, hw⟩ | ⟨hsh, _⟩
  · exact hw
  · rw [hs] at hsh
    exact Bool.noConfusion hsh

theorem alignLoop_mismatch (frobNorm : Mat → ℚ) (fs : FS)
    (slb sla : SafetensorLoader) :
    ∀ (ps : List (String × String)) (acc : List Mat),
      (∀ pr ∈ ps, isOkE (slb.get_tensor fs pr.1) = true ∧
        isOkE (sla.get_tensor fs pr.2) = true) →
      (∃ pr ∈ ps, eShape (slb.get_tensor fs pr.1) ≠ eShape (sla.get_tensor fs pr.2)) →
      alignLoop frobNorm fs slb sla ps acc = Except.error PyErr.assertionError := by
  intro ps
  induction ps with
  | nil =>
    intro acc _ hex
    simp at hex
  | cons pr rest ih =>
    obtain ⟨nb, na⟩ := pr
    intro acc hok hex
    have hhead := hok (nb, na) (by simp)
    cases hgb : SafetensorLoader.get_tensor slb fs nb with
    | error e =>
      rw [hgb] at hhead
      simp [isOkE] at hhead
    | ok tb =>
      cases hga : SafetensorLoader.get_tensor sla fs na with
      | error e =>
        rw [hga] at hhead
        simp [isOkE] at hhead
      | ok ta =>
        by_cases hsh : tb.shape = ta.shape
        · have hrest : ∃ pr2 ∈ rest,
              eShape (slb.get_tensor fs pr2.1) ≠ eShape (sla.get_tensor fs pr2.2) := by
            rcases hex with ⟨pr2, hpr2, hne⟩
            rcases List.mem_cons.mp hpr2 with heq | h2
            · subst heq
              rw [hgb, hga] at hne
              simp [eShape, hsh] at hne
            · exact ⟨pr2, h2, hne⟩
          have := ih (acc ++ [Mat.smul (1 / frobNorm (Mat.sub tb ta))
            (Mat.mm (Mat.sub tb ta) (Mat.sub tb ta).transpose)])
            (fun pr2 h2 => hok pr2 (List.mem_cons_of_mem _ h2)) hrest
          simp only [alignLoop, hgb, hga, exceptBindOk]
          rw [if_pos hsh]
          exact this
        · simp only [alignLoop, hgb, hga, exceptBindOk]
          rw [if_neg hsh]

/-- C2: under the `number` policy the pipeline does run `project_weights`
twice with the threshold reset to the k-th smallest (clamped) first-pass
score, but the first pass's resulting weights are **not** ignored:
`project_weights` assigns through its argument, so the second pass runs on
the projected mapping.  At the concrete input below (initial threshold
`9/10`, `num_proj_layers = 1`) the first pass replaces `B₁` (score `4/5`)
in place; the derived threshold is `4/5`, the second pass computes scores
`[1, 1]` and therefore replaces `0` layers, while `1` first-pass score is
`≤ 4/5`; and the mutated `B₁` persists in the final mapping even though the
second pass replaced nothing.  This refutes the claim that the first pass
only computes scores and that the second pass replaces exactly the number
of scores `≤` the k-th smallest. -/
theorem safelora_number_policy_second_pass_divergence :
    project_weights exactCos exCfgNum exPW2 exV2 = Except.ok (exPW2mut, [4/5, 1]) ∧
    kthSmallest [4/5, 1] exCfgNum.num_proj_layers = Except.ok (4/5) ∧
    project_weights exactCos (exCfgNum.setThreshold (4/5)) exPW2mut exV2 =
      Except.ok (exPW2mut, [1, 1]) ∧
    (([4/5, 1] : List ℚ).filter (fun c => decide (c ≤ 4/5))).length = 1 ∧
    (([1, 1] : List ℚ).filter (fun c => decide (c ≤ 4/5))).length = 0 ∧
    exPW2mut ≠ exPW2 := by
  refine ⟨runNum1, kthN, runNum2, ?_, ?_, by decide⟩
  · norm_num
  · norm_num

/-- C5: if the positionally paired base/aligned tensor lists contain a pair
with disagreeing shapes (and every pair's tensors resolve), the alignment
computation stops with the shape `assert` (`AssertionError`), and the whole
`apply_safelora` pipeline — which builds the alignment matrices before any
projection — fails with the same error: `project_weights` is never reached
and the adapter weight mapping is untouched. -/
theorem safelora_shape_mismatch_aborts (cossim : Mat → Mat → ℚ)
    (frobNorm : Mat → ℚ) (fs : FS) (configs : SafeLoraConfig)
    (tm : List String) (pw : WDict) (slb sla : SafetensorLoader)
    (bwm awm : List (String × String))
    (ha : SafetensorLoader.init fs configs.aligned_model_path = Except.ok sla)
    (hb : SafetensorLoader.init fs configs.base_model_path = Except.ok slb)
    (hbw : slb.weight_map = some bwm)
    (haw : sla.weight_map = some awm)
    (hok : ∀ pr ∈ (selectedNames bwm tm).zip (selectedNames awm tm),
      isOkE (slb.get_tensor fs pr.1) = true ∧ isOkE (sla.get_tensor fs pr.2) = true)
    (hex : ∃ pr ∈ (selectedNames bwm tm).zip (selectedNames awm tm),
      eShape (slb.get_tensor fs pr.1) ≠ eShape (sla.get_tensor fs pr.2)) :
    get_aligned_matrix frobNorm fs configs.base_model_path
      configs.aligned_model_path configs.devices tm =
      Except.error PyErr.assertionError ∧
    apply_safelora cossim frobNorm fs configs tm pw =
      Except.error PyErr.assertionError := by
  have h1 : get_aligned_matrix frobNorm fs configs.base_model_path
      configs.aligned_model_path configs.devices tm =
      Except.error PyErr.assertionError := by
    unfold get_aligned_matrix
    rw [ha, exceptBindOk, hb, exceptBindOk, hbw, haw]
    exact alignLoop_mismatch frobNorm fs slb sla _ [] hok hex
  refine ⟨h1, ?_⟩
  unfold apply_safelora
  rw [h1]
  rfl

/-- C5 witness: sharded base and aligned stores whose only selected tensors
have shapes `2×2` and `1×2`. -/
theorem safelora_shape_mismatch_aborts_witness :
    get_aligned_matrix exNorm exFSsharded exCfgC5.base_model_path
      exCfgC5.aligned_model_path exCfgC5.devices ["q_proj"] =
      Except.error PyErr.assertionError ∧
    apply_safelora exactCos exNorm exFSsharded exCfgC5 ["q_proj"] [] =
      Except.error PyErr.assertionError :=
  safelora_shape_mismatch_aborts exactCos exNorm exFSsharded exCfgC5 ["q_proj"] []
    ⟨"b/model.safetensors", true, some [("m.q_proj.w", "b/s1")]⟩
    ⟨"a/model.safetensors", true, some [("m.q_proj.w", "a/s1")]⟩
    [("m.q_proj.w", "b/s1")] [("m.q_proj.w", "a/s1")]
    (by decide) (by decide) rfl rfl (by decide) (by decide)

theorem isOkE_bind_false {α β : Type} (x : Except PyErr α) (f : α → Except PyErr β)
    (hf : ∀ a, isOkE (f a) = false) : isOkE (x >>= f) = false := by
  cases x with
  | error e => rfl
  | ok a => exact hf a

theorem core_never_ok (cossim : Mat → Mat → ℚ) (configs : SafeLoraConfig)
    (pw : WDict) (v : List Mat) :
    isOkE (applySafeloraCore cossim configs pw v) = false := by
  unfold applySafeloraCore
  by_cases h1 : configs.select_layers_type = "threshold"
  · rw [if_pos h1]
    exact isOkE_bind_false _ _ (fun _ => rfl)
  · rw [if_neg h1]
    by_cases h2 : configs.select_layers_type = "number"
    · rw [if_pos h2]
      refine isOkE_bind_false _ _ (fun r1 => ?_)
      refine isOkE_bind_false _ _ (fun thrs => ?_)
      exact isOkE_bind_false _ _ (fun _ => rfl)
    · rw [if_neg h2]
      rfl

/-- C6: `apply_safelora` never completes with a weight mapping and never
reaches the save step, for any inputs and any policy.  `SafeLoraConfig`
defines the field `save_weights` (line 72), but line 246 reads
`configs.saveWeights`, so both policies raise `AttributeError` after the
selection pipeline; in the `threshold` branch the `final_weights` /
`final_wieghts` misspelling (lines 239 vs 247/249) lies behind that same
failure.  Both policies are additionally evaluated at concrete inputs that
complete the selection pipeline itself without error. -/
theorem safelora_apply_never_saves :
    (∀ (cossim : Mat → Mat → ℚ) (frobNorm : Mat → ℚ) (fs : FS)
      (configs : SafeLoraConfig) (tm : List String) (pw : WDict),
      isOkE (apply_safelora cossim frobNorm fs configs tm pw) = false) ∧
    applySafeloraCore exactCos exCfgThr exPW exV =
      Except.error (PyErr.attributeError "saveWeights") ∧
    applySafeloraCore exactCos exCfgNum exPW2 exV2 =
      Except.error (PyErr.attributeError "saveWeights") := by
  refine ⟨?_, ?_, ?_⟩
  · intro cossim frobNorm fs configs tm pw
    unfold apply_safelora
    exact isOkE_bind_false _ _ (fun v => core_never_ok cossim configs pw v)
  · rw [show applySafeloraCore exactCos exCfgThr exPW exV =
        (project_weights exactCos exCfgThr exPW exV >>= fun _final =>
          Except.error (PyErr.attributeError "saveWeights")) from rfl, runThr1]
    rfl
  · rw [show applySafeloraCore exactCos exCfgNum exPW2 exV2 =
        (project_weights exactCos exCfgNum exPW2 exV2 >>= fun r1 =>
          kthSmallest r1.2 exCfgNum.num_proj_layers >>= fun thrs =>
          project_weights exactCos (exCfgNum.setThreshold thrs) r1.1 exV2 >>=
            fun _r2 => Except.error (PyErr.attributeError "saveWeights"))
        from rfl, runNum1]
    rw [exceptBindOk]
    show (kthSmallest [4/5, 1] exCfgNum.num_proj_layers >>= fun thrs =>
      project_weights exactCos (exCfgNum.setThreshold thrs) exPW2mut exV2 >>=
        fun _r2 => Except.error (PyErr.attributeError "saveWeights")) =
      Except.error (PyErr.attributeError "saveWeights")
    rw [kthN, exceptBindOk]
    show (project_weights exactCos (exCfgNum.setThreshold (4/5)) exPW2mut exV2 >>=
      fun _r2 => Except.error (PyErr.attributeError "saveWeights")) =
      Except.error (PyErr.attributeError "saveWeights")
    rw [runNum2]
    rfl

/-- C7: `get_tensor` does not strip the base-model prefix and retry, nor
does it propagate the safetensors lookup error: the handler of lines
140–147 reads `self.base_model_prefix`, which `__init__` never assigns, so
a failed exact lookup raises `AttributeError`.  Here the store (accepted by
the loader as a single-file layout) holds `"x"`, the prefix-stripped name,
yet looking up `"base_model.model.x"` still fails with the missing
attribute. -/
theorem safelora_get_tensor_attribute_error :
    SafetensorLoader.init exFSm (some "m") =
      Except.ok ⟨"m/model.safetensors", false, none⟩ ∧
    SafetensorLoader.get_tensor ⟨"m/model.safetensors", false, none⟩ exFSm
      "base_model.model.x" = Except.error (PyErr.attributeError "base_model_prefix") ∧
    dictFind? ((dictFind? exFSm.files "m/model.safetensors").getD []) "x" =
      some ⟨1, 1, [[1]]⟩ := by
  refine ⟨by decide, by decide, by decide⟩

/-- C8 counterexample: the claim says construction fails iff a path is
missing **or empty**, but `__post_init__` (lines 77–83) only checks `None`:
construction with `base_model_path = ""` (empty) succeeds. -/
theorem safelora_config_empty_path_accepted :
    ¬ (∀ (base aligned peft : Option String) (slt : String) (thr : ℚ)
        (npl : Int) (dev : String) (sw : Bool),
        (∃ e, SafeLoraConfig.construct base aligned peft slt thr npl dev sw =
          Except.error e) ↔
        (base = none ∨ base = some "" ∨ aligned = none ∨ aligned = some "" ∨
         peft = none ∨ peft = some "")) := by
  intro hclaim
  obtain ⟨e, he⟩ := (hclaim (some "") (some "a") (some "p") "threshold" 1 10
    "cpu" true).2 (Or.inr (Or.inl rfl))
  rw [show SafeLoraConfig.construct (some "") (some "a") (some "p") "threshold"
      1 10 "cpu" true =
      Except.ok ⟨some "", some "a", some "p", "threshold", 1, 10, "cpu", true⟩
      from rfl] at he
  exact Except.noConfusion he

/-- C8 amended: construction fails (with `ValueError`) iff one of the three
paths is `None`; emptiness is not validated — empty-string paths are
accepted. -/
theorem safelora_config_validates_none_only (base aligned peft : Option String)
    (slt : String) (thr : ℚ) (npl : Int) (dev : String) (sw : Bool) :
    SafeLoraConfig.construct base aligned peft slt thr npl dev sw =
      Except.error PyErr.valueError ↔
    (base = none ∨ aligned = none ∨ peft = none) := by
  unfold SafeLoraConfig.construct
  split_ifs with h1 h2 h3 <;> simp_all

/-- C10: `get_aligned_matrix` takes candidate tensor names from
`weight_map.keys()`, and `__init__` populates `weight_map` only for sharded
stores; for a single-file store — a layout the loader itself accepts — the
`weight_map` is `None` and the alignment computation raises
`AttributeError` instead of producing alignment matrices. -/
theorem safelora_nonsharded_alignment_fails (frobNorm : Mat → ℚ) (fs : FS)
    (bp ap : Option String) (devices : String) (tm : List String)
    (slb sla : SafetensorLoader)
    (hb : SafetensorLoader.init fs bp = Except.ok slb)
    (ha : SafetensorLoader.init fs ap = Except.ok sla)
    (h : slb.is_sharded = false ∨ sla.is_sharded = false) :
    get_aligned_matrix frobNorm fs bp ap devices tm =
      Except.error (PyErr.attributeError "keys") := by
  unfold get_aligned_matrix
  rw [ha, exceptBindOk, hb, exceptBindOk]
  rcases h with h1 | h1
  · rw [init_single_file fs bp slb hb h1]
    rfl
  · cases hbw : slb.weight_map with
    | none => rfl
    | some wm =>
      rw [init_single_file fs ap sla ha h1]
      rfl

/-- C10 witness: two single-file stores, both accepted by the loader. -/
theorem safelora_nonsharded_alignment_fails_witness :
    get_aligned_matrix exNorm exFSsingle (some "b") (some "a") "cpu" ["q_proj"] =
      Except.error (PyErr.attributeError "keys") :=
  safelora_nonsharded_alignment_fails exNorm exFSsingle (some "b") (some "a")
    "cpu" ["q_proj"] ⟨"b/model.safetensors", false, none⟩
    ⟨"a/model.safetensors", false, none⟩ (by decide) (by decide) (Or.inl rfl)
